import Mathlib

/-!
Shallow embedding of the smithay display-server backend of leftwm
(`display-servers/smithay-display-server/src/lib.rs` and
`src/managed_window.rs`): the window registry, the managed-window record,
the action-dispatch state machine, the main event loop's continuation
logic, the keyboard input filter, and the WM-core-facing sender interface.

External collaborators (the smithay toolkit, the leftwm-core crate and the
repository modules `window_registry.rs`, `state.rs`, `internal_action.rs`
that are not part of the verified sources) are modelled at their interface
boundary, as documented on each definition.
-/

namespace Smithay

/-- Type `leftwm_core::models::WindowHandle`, the opaque handle the WM core uses.
Modelled at the interface boundary of the leftwm-core crate: a tagged
identifier whose `SmithayHandle` variant carries the backend registry
handle; the other variants (`XlibHandle`, `MockHandle`) belong to other
display servers and are foreign to this backend. -/
inductive LWMHandle where
  | SmithayHandle (h : Nat)
  | XlibHandle (h : Nat)
  | MockHandle (h : Nat)
  deriving DecidableEq, Repr

/-- Whether a `WindowHandle` is this backend's own (`SmithayHandle`) variant. -/
def LWMHandle.isSmithay : LWMHandle → Bool
  | .SmithayHandle _ => true
  | _ => false

/-- Type `smithay::utils::Rectangle<i32, Logical>`: a logical-coordinate rectangle,
modelled with mathematical integers for the i32 fields (no arithmetic in the
embedded code can overflow the i32 range on the inputs considered). -/
structure Rect where
  x : Int
  y : Int
  w : Int
  h : Int
  deriving DecidableEq, Repr

/-- Record `ManagedWindowData` (managed_window.rs lines 29-35): per-window state
shared by reference between the registry and its consumers.  The `tag`
field is written by the `SetWindowTag` dispatch arm (lib.rs line 325) but
is absent from the struct declaration in `managed_window.rs`; it is
modelled from the spec: the tag is opaque metadata stored on the window's
data record (`Option` of a leftwm tag id, carried unexamined). -/
structure ManagedWindowData where
  managed : Bool := false
  floating : Bool := false
  visible : Bool := false
  geometry : Option Rect := none
  tag : Option Nat := none
  deriving DecidableEq, Repr

/-- Record `ManagedWindow` (managed_window.rs lines 37-42).  `window` stands for the
underlying `smithay::desktop::Window` surface object, identified by an
opaque surface id (its toplevel surface state is held separately, keyed by
this id, because the Rust object is shared by reference between clones).
`data` is the id of the shared `Arc<RwLock<ManagedWindowData>>` cell, again
held separately because clones alias it. -/
structure ManagedWindow where
  window : Nat
  handle : Option Nat := none
  data : Nat
  deriving DecidableEq, Repr

/-- Equality `impl PartialEq for ManagedWindow` (managed_window.rs lines 44-51):
`self.handle.is_some_and(|h1| other.handle.is_some_and(|h2| h2 == h1))`. -/
def ManagedWindow.beq (w1 w2 : ManagedWindow) : Bool :=
  (w1.handle.map (fun h1 => (w2.handle.map (fun h2 => h2 == h1)).getD false)).getD false

/-- Constructor `ManagedWindow::new` (managed_window.rs lines 200-206): fresh data record,
no handle assigned yet. -/
def ManagedWindow.new (window : Nat) (dataCell : Nat) : ManagedWindow :=
  { window := window, handle := none, data := dataCell }

/-- Method `ManagedWindow::set_handle` (managed_window.rs lines 241-245): sets the
window handle only if the current handle is `None`. -/
def ManagedWindow.set_handle (w : ManagedWindow) (h : Nat) : ManagedWindow :=
  if w.handle.isNone then { w with handle := some h } else w

/-- Method `ManagedWindow::get_handle` (managed_window.rs lines 247-249). -/
def ManagedWindow.get_handle (w : ManagedWindow) : Option Nat :=
  w.handle

/-- A `leftwm_core::Window` snapshot as consumed by the dispatch code.
Modelled at the interface boundary of the leftwm-core crate: the dispatch
arms read only the handle, the placement accessors `x()`/`y()` and the size
accessors `width()`/`height()` (all i32, modelled as `Int`). -/
structure LWindow where
  handle : LWMHandle
  x : Int
  y : Int
  width : Int
  height : Int
  deriving DecidableEq, Repr

/-- Type `leftwm_core::DisplayAction`, modelled at the interface boundary of the
leftwm-core crate with the variants and arities matched by the dispatch in
lib.rs lines 243-335.  Payloads the dispatch never examines are carried as
opaque values (`Nat`, lists of handles or tag ids). -/
inductive DisplayAction where
  | KillWindow (h : LWMHandle)
  | AddedWindow (h : LWMHandle) (floating : Bool) (focus : Bool)
  | MoveMouseOver (h : LWMHandle) (force : Bool)
  | MoveMouseOverPoint (point : Int × Int)
  | SetState (h : LWMHandle) (toggle : Bool) (window_state : Nat)
  | SetWindowOrder (fullscreen : List LWMHandle) (others : List LWMHandle)
  | MoveToTop (h : LWMHandle)
  | DestroyedWindow (h : LWMHandle)
  | WindowTakeFocus (window : LWindow) (previous_window : Option LWindow)
  | Unfocus (h : Option LWMHandle) (floating : Bool)
  | FocusWindowUnderCursor
  | ReplayClick (h : LWMHandle) (button : Nat)
  | ReadyToResizeWindow (h : LWMHandle)
  | ReadyToMoveWindow (h : LWMHandle)
  | SetCurrentTags (tags : List Nat)
  | SetWindowTag (h : LWMHandle) (tag : Option Nat)
  | NormalMode
  | ConfigureXlibWindow (window : LWindow)
  deriving DecidableEq, Repr

/-- Type `InternalAction`.  Modelled from the spec: the module
`internal_action.rs` is not among the verified sources; §3 of the spec and
the dispatch match in lib.rs fix its four variants — a flush request, a
focus-verification request, a batch window update, and a forwarded display
action. -/
inductive InternalAction where
  | Flush
  | GenerateVerifyFocusEvent
  | UpdateWindows (windows : List LWindow)
  | DisplayAction (act : DisplayAction)
  deriving DecidableEq, Repr

/-- Record `LeftwmConfig` (lib.rs lines 59-62): immutable snapshot of the
focus-follows policy taken at backend start.  `focus_behavior` is carried
opaquely; the dispatch reads only `sloppy_mouse_follows_focus`. -/
structure LeftwmConfig where
  focus_behavior : Nat
  sloppy_mouse_follows_focus : Bool
  deriving DecidableEq, Repr

/-- The pending configure state of a toplevel surface
(`smithay::wayland::shell::xdg::ToplevelSurface`), modelled at the interface
boundary of the smithay toolkit: `with_pending_state(|s| s.size = Some(..))`
records a pending size, `send_configure()` sends it to the client. -/
structure ToplevelState where
  pendingSize : Option (Int × Int) := none
  configureSent : Bool := false
  deriving DecidableEq, Repr

/-- The backend-thread state touched by the dispatch and the event loop:
the window registry, the smithay `Space` layout, the shared toplevel and
data cells, the focus bookkeeping, the atomic `running` flag and the
client-flush counter.

* `window_registry` — modelled from the spec: `window_registry.rs` is not
  among the verified sources; §4.5 fixes it as the authoritative mapping
  from backend window handle to `ManagedWindow`, whose `get`/`get_mut`
  return the record when the handle is registered (the dispatch's
  `.unwrap()` turns an unknown handle into a panic).  Modelled as an
  association list queried with `List.lookup`.
* `space` — the smithay `Space` layout, modelled at the toolkit boundary as
  the list of mapped elements with their logical locations;
  `unmap_elem(w)` removes the elements equal to `w` under the
  `ManagedWindow` `PartialEq` and `map_element(w, loc, false)` maps `w` at
  `loc`.
* `toplevels` — the shared toplevel surface state, keyed by surface id
  (shared by reference between registry entry and space clones).
* dataCells — the shared `ManagedWindowData` cells, keyed by cell id.
* `focused` — modelled from the spec: `SmithayState::focus_window` lives in
  `state.rs`, not among the verified sources; per §4.2 it transfers input
  focus to the named window (resolving it through the registry, where an
  unknown handle is fatal per §4.5), honouring the sloppy-mouse flag it is
  given.  Modelled as recording the transfer: the target handle and the
  sloppy-mouse flag passed by the caller.
* `focusUnderRequested` — likewise modelled from the spec:
  `focus_window_under` recomputes focus from the live pointer position,
  which is outside this embedding; modelled as recording the request. -/
structure BackendState where
  config : LeftwmConfig
  window_registry : List (Nat × ManagedWindow)
  space : List (ManagedWindow × (Int × Int))
  toplevels : Nat → ToplevelState
  dataCells : Nat → ManagedWindowData
  focused : Option (Nat × Bool) := none
  focusUnderRequested : Bool := false
  running : Bool := true
  flushes : Nat := 0

/-- Point update of a shared-cell store (an `Arc<RwLock<..>>` write). -/
def updateCell {α : Type} (f : Nat → α) (k : Nat) (g : α → α) : Nat → α :=
  fun n => if n = k then g (f n) else f n

/-- Method `SmithayState::focus_window(handle, sloppy)`.  Modelled from the spec
(see `BackendState.focused`): resolves the handle through the registry —
fatal (`none`) when unregistered — and records the focus transfer together
with the sloppy-mouse flag the caller passed. -/
def focus_window (st : BackendState) (handle : Nat) (sloppy : Bool) :
    Option BackendState :=
  match st.window_registry.lookup handle with
  | none => none
  | some _ => some { st with focused := some (handle, sloppy) }

/-- The fixed coordinate-correction constant (lib.rs line 46): windows are
placed at an offset for an undiagnosed reason and this constant corrects
for it. -/
def OFFSET : Int := 11

/-- One iteration of the `UpdateWindows` loop body (lib.rs lines 218-241):
destructure the handle (panic — `none` — when it is not a `SmithayHandle`),
resolve it through the registry (`.unwrap()`: panic when unregistered),
unmap the window from the space, re-map a clone of it at
`(x - OFFSET, y - OFFSET)` without activating, set the toplevel's pending
size to `(width, height)` and send a configure. -/
def updateOneWindow (st : BackendState) (window : LWindow) :
    Option BackendState :=
  match window.handle with
  | .SmithayHandle handle =>
    match st.window_registry.lookup handle with
    | none => none
    | some managed_window =>
      let unmapped := st.space.filter
        (fun e => ¬ ManagedWindow.beq e.1 managed_window)
      some { st with
        space := (managed_window, (window.x - OFFSET, window.y - OFFSET))
          :: unmapped,
        toplevels := updateCell st.toplevels managed_window.window
          (fun _t => { pendingSize := some (window.width, window.height),
                       configureSent := true }) }
  | _ => none

/-- The action-channel message handler (lib.rs lines 211-335): the dispatch
state machine over `InternalAction`.  `none` models a panic of the backend
thread (a failed `.unwrap()`, a foreign handle, or a `todo!()` placeholder
arm); `some st'` is the post-dispatch state.  The `SetWindowOrder` and
`SetCurrentTags` arms are deliberately empty (lines 273-275 and 313-315);
`Flush` flushes all pending client messages (counted here) and
`GenerateVerifyFocusEvent` is an explicit no-op placeholder. -/
def dispatchInternal (st : BackendState) : InternalAction →
    Option BackendState
  | .Flush => some { st with flushes := st.flushes + 1 }
  | .GenerateVerifyFocusEvent => some st
  | .UpdateWindows windows => windows.foldlM updateOneWindow st
  | .DisplayAction (.KillWindow _) => none
  | .DisplayAction (.AddedWindow h floating focus) =>
    match h with
    | .SmithayHandle handle =>
      match st.window_registry.lookup handle with
      | none => none
      | some window =>
        let st' := { st with
          dataCells := updateCell st.dataCells window.data
            (fun d => { d with floating := floating, managed := true }) }
        if focus then focus_window st' handle true else some st'
    | _ => none
  | .DisplayAction (.MoveMouseOver _ _) => none
  | .DisplayAction (.MoveMouseOverPoint _) => none
  | .DisplayAction (.SetState _ _ _) => none
  | .DisplayAction (.SetWindowOrder _ _) => some st
  | .DisplayAction (.MoveToTop _) => none
  | .DisplayAction (.DestroyedWindow _) => none
  | .DisplayAction (.WindowTakeFocus window _previous_window) =>
    match window.handle with
    | .SmithayHandle handle =>
      focus_window st handle st.config.sloppy_mouse_follows_focus
    | _ => none
  | .DisplayAction (.Unfocus _ _) => none
  | .DisplayAction .FocusWindowUnderCursor =>
    some { st with focusUnderRequested := true }
  | .DisplayAction (.ReplayClick _ _) => none
  | .DisplayAction (.ReadyToResizeWindow _) => none
  | .DisplayAction (.ReadyToMoveWindow _) => none
  | .DisplayAction (.SetCurrentTags _) => some st
  | .DisplayAction (.SetWindowTag h tag) =>
    match h with
    | .SmithayHandle handle =>
      match st.window_registry.lookup handle with
      | none => none
      | some window =>
        some { st with
          dataCells := updateCell st.dataCells window.data
            (fun d => { d with tag := tag }) }
    | _ => none
  | .DisplayAction .NormalMode => none
  | .DisplayAction (.ConfigureXlibWindow _) => none

/-- An event delivered to the action-channel source of the event loop
(`calloop::channel::Event`): either a message carrying an
`InternalAction`, or `Closed`, raised once the core side of the channel is
dropped. -/
inductive ChannelEvent where
  | Msg (act : InternalAction)
  | Closed
  deriving DecidableEq, Repr

/-- The action-channel source callback (lib.rs lines 210-341): a message is
dispatched through the action state machine; a closed channel stores
`false` into the `running` flag (lines 337-340). -/
def handleChannelEvent (st : BackendState) : ChannelEvent →
    Option BackendState
  | .Msg act => dispatchInternal st act
  | .Closed => some { st with running := false }

/-- The timeout passed to every `event_loop.dispatch` call
(lib.rs line 349): 16 milliseconds. -/
def dispatchTimeoutMs : Nat := 16

/-- One `event_loop.dispatch(Some(16ms), ..)` call, draining a batch of
ready channel events in order.  A `none` result models the backend thread
panicking inside a handler (which unwinds through `dispatch` and kills the
thread, ending the loop). -/
def dispatchTick (st : BackendState) : List ChannelEvent →
    Option BackendState
  | [] => some st
  | ev :: rest => do
    let st' ← handleChannelEvent st ev
    dispatchTick st' rest

/-- Post-dispatch bookkeeping of a successful loop iteration
(lib.rs lines 355-357): `space.refresh()` and `flush_clients()`.
`refresh` drops dead elements, a liveness notion owned by the toolkit and
outside this embedding; the flush is counted. -/
def postDispatch (st : BackendState) : BackendState :=
  { st with flushes := st.flushes + 1 }

/-- The main event loop (lib.rs lines 346-359): while the `running` flag is
true, dispatch one 16ms tick over the next batch of ready events, then —
when the tick neither panicked nor erred — run the bookkeeping and
continue.  `runLoop batches st` counts how many ticks execute before the
loop (or the thread) exits, given the per-tick batches of ready channel
events. -/
def runLoop (st : BackendState) : List (List ChannelEvent) → Nat
  | [] => 0
  | batch :: rest =>
    if st.running then
      match dispatchTick st batch with
      | none => 1
      | some st' => 1 + runLoop (postDispatch st') rest
    else 0

/-- The keyboard modifier state read by the input filter
(`smithay::input::keyboard::ModifiersState`), restricted to the fields the
filter consults. -/
structure ModifiersState where
  caps_lock : Bool := false
  num_lock : Bool := false
  logo : Bool := false
  shift : Bool := false
  deriving DecidableEq, Repr

/-- Keysym `xkb::KEY_Return`. -/
def KEY_Return : Nat := 0xff0d

/-- Keysym `xkb::KEY_Q`. -/
def KEY_Q : Nat := 0x0051

/-- Keysym `xkb::KEY_XF86Switch_VT_1`, the first keysym of the reserved
virtual-terminal-switch range. -/
def KEY_XF86Switch_VT_1 : Nat := 0x1008fe01

/-- Keysym `xkb::KEY_XF86Switch_VT_12`, the last keysym of the reserved
virtual-terminal-switch range. -/
def KEY_XF86Switch_VT_12 : Nat := 0x1008fe0c

/-- Type `smithay::input::keyboard::FilterResult<i32>`: either intercept the key
event, carrying the target virtual-terminal index, or forward it to normal
keyboard-focus handling. -/
inductive FilterResult where
  | Intercept (vt : Int)
  | Forward
  deriving DecidableEq, Repr

/-- The keyboard input filter closure (lib.rs lines 108-142), applied to a
key event with the given modifier state and modified keysym.  On a press it
mirrors the lock LEDs to hardware (a device effect outside this embedding),
then checks the built-in bindings in order: logo+shift+Return spawns the
terminal (an external process effect) and falls through to `Forward`;
logo+shift+Q stores `false` into the `running` flag and falls through to
`Forward`; a keysym in the reserved VT-switch range returns
`Intercept(keysym - KEY_XF86Switch_VT_1 + 1)`.  Everything else — releases
included — is forwarded.  Returns the filter result and the `running` flag
after the closure ran. -/
def keyboardFilter (running : Bool) (modifiers : ModifiersState)
    (sym : Nat) (pressed : Bool) : FilterResult × Bool :=
  if pressed then
    if modifiers.logo && modifiers.shift && sym == KEY_Return then
      (.Forward, running)
    else if modifiers.logo && modifiers.shift && sym == KEY_Q then
      (.Forward, false)
    else if KEY_XF86Switch_VT_1 ≤ sym ∧ sym ≤ KEY_XF86Switch_VT_12 then
      (.Intercept ((sym : Int) - (KEY_XF86Switch_VT_1 : Nat) + 1), running)
    else (.Forward, running)
  else (.Forward, running)

/-- The keyboard branch of the libinput source (lib.rs lines 99-146): when
the filter intercepts, `keyboard.input` returns `Some(vt)` and the handler
requests `session.change_vt(vt)`.  Returns the VT index of the requested
session VT change, when one is made, and the `running` flag afterwards. -/
def keyboardKeyEvent (running : Bool) (modifiers : ModifiersState)
    (sym : Nat) (pressed : Bool) : Option Int × Bool :=
  match keyboardFilter running modifiers sym pressed with
  | (.Intercept vt, r) => (some vt, r)
  | (.Forward, r) => (none, r)

/-- Whether the action channel still has its receiver: `false` once the
backend thread has exited and the calloop channel receiver was dropped, in
which case `Sender::send` returns an error and the interface methods'
`.unwrap()` panics in the calling thread. -/
def sendOnChannel (channelOpen : Bool) (_act : InternalAction) :
    Option Unit :=
  if channelOpen then some () else none

/-- Method `SmithayHandle::flush` (lib.rs lines 383-385): enqueue a flush action,
`.unwrap()` on the send. -/
def SmithayHandle.flush (channelOpen : Bool) : Option Unit :=
  sendOnChannel channelOpen .Flush

/-- Method `SmithayHandle::generate_verify_focus_event` (lib.rs lines 387-392):
enqueue the request (`.unwrap()` on the send) and return `None`. -/
def SmithayHandle.generate_verify_focus_event (channelOpen : Bool) :
    Option (Option Unit) := do
  let _ ← sendOnChannel channelOpen .GenerateVerifyFocusEvent
  some none

/-- Method `SmithayHandle::update_windows` (lib.rs lines 402-407): clone the window
snapshots, enqueue the batch, `.unwrap()` on the send. -/
def SmithayHandle.update_windows (channelOpen : Bool)
    (windows : List LWindow) : Option Unit :=
  sendOnChannel channelOpen (.UpdateWindows windows)

/-- Method `SmithayHandle::execute_action` (lib.rs lines 411-416): enqueue the
display action (`.unwrap()` on the send) and return `None`. -/
def SmithayHandle.execute_action (channelOpen : Bool)
    (act : DisplayAction) : Option (Option Unit) := do
  let _ ← sendOnChannel channelOpen (.DisplayAction act)
  some none

/-! Abbreviations for the cell updates performed by the dispatch arms,
used to state the theorems below compactly. -/

/-- The data-record write of the `SetWindowTag` arm: store the tag. -/
def writeTag (tag : Option Nat) (d : ManagedWindowData) :
    ManagedWindowData :=
  { d with tag := tag }

/-- The toplevel state after `with_pending_state` set the size and
`send_configure` ran. -/
def configuredAt (size : Int × Int) : ToplevelState :=
  { pendingSize := some size, configureSent := true }

/-- The data-record write of the `AddedWindow` arm: set the floating flag
and mark the window managed. -/
def markAdded (floating : Bool) (d : ManagedWindowData) :
    ManagedWindowData :=
  { d with floating := floating, managed := true }

/-! Concrete sample data, used to evaluate the theorems below on closed
inputs. -/

/-- A sample registered managed window: surface id 7, registry handle 3,
data cell 5. -/
def mw0 : ManagedWindow := { window := 7, handle := some 3, data := 5 }

/-- A sample backend state whose registry holds exactly `mw0` under
handle 3. -/
def st0 : BackendState :=
  { config := { focus_behavior := 0, sloppy_mouse_follows_focus := false },
    window_registry := [(3, mw0)],
    space := [],
    toplevels := fun _ => {},
    dataCells := fun _ => {} }

/-- A sample window snapshot for handle 3 at (100, 50), sized 640×480. -/
def win0 : LWindow :=
  { handle := .SmithayHandle 3, x := 100, y := 50, width := 640,
    height := 480 }

/-! The claims. -/

/-- C5: for any `ManagedWindow`, calling `set_handle` twice with different
handles leaves the first handle in effect: `set_handle` assigns only when
the current handle is `None`, so the second call is a no-op, and on a
window that had no handle `get_handle` afterwards returns the first
handle. -/
theorem C5_set_handle_idempotent (w : ManagedWindow) (h1 h2 : Nat) :
    (w.set_handle h1).set_handle h2 = w.set_handle h1 ∧
    (w.get_handle = none →
      ((w.set_handle h1).set_handle h2).get_handle = some h1) := by
  unfold ManagedWindow.set_handle ManagedWindow.get_handle
  cases hw : w.handle <;> simp [hw]

/-- Witness for C5 on the fresh window `ManagedWindow.new 7 5` and the
distinct handles 1 and 2. -/
theorem C5_set_handle_idempotent_witness :
    (ManagedWindow.new 7 5).get_handle = none ∧
    (((ManagedWindow.new 7 5).set_handle 1).set_handle 2).get_handle =
      some 1 :=
  ⟨rfl, (C5_set_handle_idempotent (ManagedWindow.new 7 5) 1 2).2 rfl⟩

/-- C6: two `ManagedWindow`s are equal under the embedded `PartialEq`
exactly when both carry an assigned handle and the handles coincide — so a
window whose handle is `None` is never equal to anything (itself included)
and two windows with equal assigned handles are equal whatever their other
fields. -/
theorem C6_equality_by_handle (w1 w2 : ManagedWindow) :
    ManagedWindow.beq w1 w2 = true ↔
      ∃ h, w1.handle = some h ∧ w2.handle = some h := by
  unfold ManagedWindow.beq
  cases h1 : w1.handle <;> cases h2 : w2.handle <;> simp

/-- C10: every fire-and-forget interface method (`flush`,
`generate_verify_focus_event`, `update_windows`, `execute_action`) panics
in the calling thread when the channel to the backend is closed, and on an
open channel returns without an error value, `generate_verify_focus_event`
and `execute_action` returning `None` for every input. -/
theorem C10_senders_panic_or_return_none (windows : List LWindow)
    (act : DisplayAction) :
    SmithayHandle.flush false = none ∧
    SmithayHandle.generate_verify_focus_event false = none ∧
    SmithayHandle.update_windows false windows = none ∧
    SmithayHandle.execute_action false act = none ∧
    SmithayHandle.flush true = some () ∧
    SmithayHandle.generate_verify_focus_event true = some none ∧
    SmithayHandle.update_windows true windows = some () ∧
    SmithayHandle.execute_action true act = some none :=
  ⟨rfl, rfl, rfl, rfl, rfl, rfl, rfl, rfl⟩

/-- C1: dispatching an `UpdateWindows` action listing a window with handle
`H`, position `(x, y)` and size `(w, h)` re-maps the registered window in
the layout at `(x - OFFSET, y - OFFSET)` with `OFFSET = 11`, sets its
toplevel's pending size to `(w, h)` and sends a configure; the registry,
every data cell and every other window's toplevel state are unchanged. -/
theorem C1_update_windows_geometry (st : BackendState) (win : LWindow)
    (H : Nat) (mw : ManagedWindow)
    (hh : win.handle = .SmithayHandle H)
    (hreg : st.window_registry.lookup H = some mw) :
    ∃ st', dispatchInternal st (.UpdateWindows [win]) = some st' ∧
      OFFSET = 11 ∧
      st'.space = (mw, (win.x - OFFSET, win.y - OFFSET)) ::
        st.space.filter (fun e => ¬ ManagedWindow.beq e.1 mw) ∧
      st'.toplevels mw.window = configuredAt (win.width, win.height) ∧
      (∀ s, s ≠ mw.window → st'.toplevels s = st.toplevels s) ∧
      st'.window_registry = st.window_registry ∧
      st'.dataCells = st.dataCells ∧
      st'.focused = st.focused ∧
      st'.running = st.running := by
  have hdisp : dispatchInternal st (.UpdateWindows [win]) =
      some { st with
        space := (mw, (win.x - OFFSET, win.y - OFFSET)) ::
          st.space.filter (fun e => ¬ ManagedWindow.beq e.1 mw),
        toplevels := updateCell st.toplevels mw.window
          (fun _t => configuredAt (win.width, win.height)) } := by
    simp [dispatchInternal, updateOneWindow, hh, hreg, configuredAt]
  refine ⟨_, hdisp, rfl, rfl, ?_, ?_, rfl, rfl, rfl, rfl⟩
  · simp [updateCell]
  · intro s hs
    simp [updateCell, hs]

/-- Witness for C1 on the sample state `st0` and the snapshot `win0`
(handle 3 at (100, 50), 640×480). -/
theorem C1_update_windows_geometry_witness :
    win0.handle = .SmithayHandle 3 ∧
    st0.window_registry.lookup 3 = some mw0 ∧
    ∃ st', dispatchInternal st0 (.UpdateWindows [win0]) = some st' ∧
      OFFSET = 11 ∧
      st'.space = (mw0, (win0.x - OFFSET, win0.y - OFFSET)) ::
        st0.space.filter (fun e => ¬ ManagedWindow.beq e.1 mw0) ∧
      st'.toplevels mw0.window = configuredAt (win0.width, win0.height) ∧
      (∀ s, s ≠ mw0.window → st'.toplevels s = st0.toplevels s) ∧
      st'.window_registry = st0.window_registry ∧
      st'.dataCells = st0.dataCells ∧
      st'.focused = st0.focused ∧
      st'.running = st0.running :=
  ⟨rfl, rfl, C1_update_windows_geometry st0 win0 3 mw0 rfl rfl⟩

/-- C2: dispatching `SetWindowOrder` or `SetCurrentTags` is silently
ignored (the state is returned unchanged and the event loop keeps running,
completing a further tick), while dispatching `KillWindow` or any other
unimplemented display action (`MoveMouseOver`, `MoveMouseOverPoint`,
`SetState`, `MoveToTop`, `DestroyedWindow`, `Unfocus`, `ReplayClick`,
`ReadyToResizeWindow`, `ReadyToMoveWindow`, `NormalMode`,
`ConfigureXlibWindow`) panics the backend thread, ending the loop in the
tick that dispatched it. -/
theorem C2_suppressed_vs_fatal (st : BackendState)
    (a b : List LWMHandle) (tags : List Nat) (h : LWMHandle)
    (point : Int × Int) (toggle : Bool) (ws : Nat)
    (oh : Option LWMHandle) (fl : Bool) (btn : Nat) (w : LWindow) :
    dispatchInternal st (.DisplayAction (.SetWindowOrder a b)) = some st ∧
    dispatchInternal st (.DisplayAction (.SetCurrentTags tags)) = some st ∧
    dispatchInternal st (.DisplayAction (.KillWindow h)) = none ∧
    dispatchInternal st (.DisplayAction (.MoveMouseOver h fl)) = none ∧
    dispatchInternal st (.DisplayAction (.MoveMouseOverPoint point)) =
      none ∧
    dispatchInternal st (.DisplayAction (.SetState h toggle ws)) = none ∧
    dispatchInternal st (.DisplayAction (.MoveToTop h)) = none ∧
    dispatchInternal st (.DisplayAction (.DestroyedWindow h)) = none ∧
    dispatchInternal st (.DisplayAction (.Unfocus oh fl)) = none ∧
    dispatchInternal st (.DisplayAction (.ReplayClick h btn)) = none ∧
    dispatchInternal st (.DisplayAction (.ReadyToResizeWindow h)) = none ∧
    dispatchInternal st (.DisplayAction (.ReadyToMoveWindow h)) = none ∧
    dispatchInternal st (.DisplayAction .NormalMode) = none ∧
    dispatchInternal st (.DisplayAction (.ConfigureXlibWindow w)) = none ∧
    runLoop { st with running := true }
      [[.Msg (.DisplayAction (.SetWindowOrder a b))], []] = 2 ∧
    runLoop { st with running := true }
      [[.Msg (.DisplayAction (.SetCurrentTags tags))], []] = 2 ∧
    runLoop { st with running := true }
      [[.Msg (.DisplayAction (.KillWindow h))], []] = 1 :=
  ⟨rfl, rfl, rfl, rfl, rfl, rfl, rfl, rfl, rfl, rfl, rfl, rfl, rfl, rfl,
    rfl, rfl, rfl⟩

/-- C7: dispatching `SetWindowTag(handle, tag)` stores the tag — whatever
it is, unvalidated — on the shared data record of the window behind the
handle and changes nothing else: the registry, the space, the toplevels,
focus and the running flag are untouched, and every other data cell keeps
its value. -/
theorem C7_set_window_tag (st : BackendState) (H : Nat)
    (mw : ManagedWindow) (tag : Option Nat)
    (hreg : st.window_registry.lookup H = some mw) :
    dispatchInternal st
        (.DisplayAction (.SetWindowTag (.SmithayHandle H) tag)) =
      some { st with
        dataCells := updateCell st.dataCells mw.data (writeTag tag) } ∧
    updateCell st.dataCells mw.data (writeTag tag) mw.data =
      { st.dataCells mw.data with tag := tag } ∧
    (∀ c, c ≠ mw.data →
      updateCell st.dataCells mw.data (writeTag tag) c =
        st.dataCells c) := by
  refine ⟨?_, ?_, ?_⟩
  · simp only [dispatchInternal]
    rw [hreg]
    rfl
  · simp [updateCell, writeTag]
  · intro c hc
    simp [updateCell, hc]

/-- Witness for C7 on the sample state `st0`, storing tag 42 on the window
registered under handle 3 (data cell 5), leaving cell 0 untouched. -/
theorem C7_set_window_tag_witness :
    st0.window_registry.lookup 3 = some mw0 ∧
    dispatchInternal st0
        (.DisplayAction (.SetWindowTag (.SmithayHandle 3) (some 42))) =
      some { st0 with
        dataCells := updateCell st0.dataCells mw0.data
          (writeTag (some 42)) } ∧
    updateCell st0.dataCells mw0.data (writeTag (some 42)) mw0.data =
      { st0.dataCells mw0.data with tag := some 42 } ∧
    updateCell st0.dataCells mw0.data (writeTag (some 42)) 0 =
      st0.dataCells 0 := by
  have h := C7_set_window_tag st0 3 mw0 (some 42) rfl
  exact ⟨rfl, h.1, h.2.1, h.2.2 0 (by decide)⟩

/-- C3: every dispatched action that references a window handle
(`UpdateWindows`, `AddedWindow`, `WindowTakeFocus`, `SetWindowTag`) panics
when the handle is not a `SmithayHandle` or is not registered in the
window registry, and when the handle is a registered `SmithayHandle` the
fatal branch is unreachable: the dispatch completes. -/
theorem C3_handle_resolution_fatal (st : BackendState) (win : LWindow)
    (fh : LWMHandle) (H : Nat) (floating focus : Bool) (tag : Option Nat)
    (prev : Option LWindow) :
    (fh.isSmithay = false →
      dispatchInternal st
        (.UpdateWindows [{ win with handle := fh }]) = none ∧
      dispatchInternal st
        (.DisplayAction (.AddedWindow fh floating focus)) = none ∧
      dispatchInternal st
        (.DisplayAction
          (.WindowTakeFocus { win with handle := fh } prev)) = none ∧
      dispatchInternal st
        (.DisplayAction (.SetWindowTag fh tag)) = none) ∧
    (st.window_registry.lookup H = none →
      dispatchInternal st
        (.UpdateWindows [{ win with handle := .SmithayHandle H }]) =
          none ∧
      dispatchInternal st
        (.DisplayAction (.AddedWindow (.SmithayHandle H) floating focus))
          = none ∧
      dispatchInternal st
        (.DisplayAction (.WindowTakeFocus
          { win with handle := .SmithayHandle H } prev)) = none ∧
      dispatchInternal st
        (.DisplayAction (.SetWindowTag (.SmithayHandle H) tag)) = none) ∧
    ((st.window_registry.lookup H).isSome →
      (dispatchInternal st
        (.UpdateWindows [{ win with handle := .SmithayHandle H }])).isSome
        ∧
      (dispatchInternal st
        (.DisplayAction
          (.AddedWindow (.SmithayHandle H) floating focus))).isSome ∧
      (dispatchInternal st
        (.DisplayAction (.WindowTakeFocus
          { win with handle := .SmithayHandle H } prev))).isSome ∧
      (dispatchInternal st
        (.DisplayAction (.SetWindowTag (.SmithayHandle H) tag))).isSome)
    := by
  refine ⟨?_, ?_, ?_⟩
  · intro hfh
    cases fh with
    | SmithayHandle h => simp [LWMHandle.isSmithay] at hfh
    | XlibHandle h =>
      exact ⟨by simp [dispatchInternal, updateOneWindow], rfl, rfl, rfl⟩
    | MockHandle h =>
      exact ⟨by simp [dispatchInternal, updateOneWindow], rfl, rfl, rfl⟩
  · intro hnone
    refine ⟨?_, ?_, ?_, ?_⟩
    · simp [dispatchInternal, updateOneWindow, hnone]
    · simp [dispatchInternal, hnone]
    · simp [dispatchInternal, focus_window, hnone]
    · simp [dispatchInternal, hnone]
  · intro hsome
    obtain ⟨mw, hmw⟩ := Option.isSome_iff_exists.mp hsome
    refine ⟨?_, ?_, ?_, ?_⟩
    · simp [dispatchInternal, updateOneWindow, hmw]
    · cases focus <;> simp [dispatchInternal, focus_window, hmw]
    · simp [dispatchInternal, focus_window, hmw]
    · simp [dispatchInternal, hmw]

/-- Witness for C3: on the sample state `st0`, an `XlibHandle` and the
unregistered handle 99 are fatal for `AddedWindow`/`SetWindowTag`, while
the registered handle 3 dispatches successfully. -/
theorem C3_handle_resolution_fatal_witness :
    LWMHandle.isSmithay (.XlibHandle 0) = false ∧
    dispatchInternal st0
      (.DisplayAction (.AddedWindow (.XlibHandle 0) false false)) = none ∧
    st0.window_registry.lookup 99 = none ∧
    dispatchInternal st0
      (.DisplayAction (.SetWindowTag (.SmithayHandle 99) none)) = none ∧
    (st0.window_registry.lookup 3).isSome ∧
    (dispatchInternal st0
      (.DisplayAction (.AddedWindow (.SmithayHandle 3) false
        true))).isSome := by
  have h1 := C3_handle_resolution_fatal st0 win0 (.XlibHandle 0) 99
    false false none none
  have h2 := C3_handle_resolution_fatal st0 win0 (.XlibHandle 0) 3
    false true none none
  exact ⟨rfl, (h1.1 rfl).2.1, rfl, (h1.2.1 rfl).2.2.2, rfl,
    (h2.2.2 rfl).2.1⟩

/-- C9: dispatching `AddedWindow(handle, floating, focus=true)` transfers focus with
the sloppy-mouse flag hard-coded to `true`, whatever the configured
`sloppy_mouse_follows_focus` value, while `WindowTakeFocus` transfers
focus with the configured value. -/
theorem C9_added_window_sloppy_hardcoded (st : BackendState) (H : Nat)
    (mw : ManagedWindow) (floating : Bool) (win : LWindow)
    (prev : Option LWindow)
    (hreg : st.window_registry.lookup H = some mw) :
    (∃ st', dispatchInternal st
        (.DisplayAction (.AddedWindow (.SmithayHandle H) floating true)) =
          some st' ∧
      st'.focused = some (H, true)) ∧
    (win.handle = .SmithayHandle H →
      ∃ st', dispatchInternal st
          (.DisplayAction (.WindowTakeFocus win prev)) = some st' ∧
        st'.focused = some (H, st.config.sloppy_mouse_follows_focus)) := by
  constructor
  · refine ⟨{ st with
      dataCells := updateCell st.dataCells mw.data (markAdded floating),
      focused := some (H, true) }, ?_, rfl⟩
    simp only [dispatchInternal]
    rw [hreg]
    simp only [focus_window, List.lookup, hreg]
    rfl
  · intro hh
    refine ⟨{ st with
      focused := some (H, st.config.sloppy_mouse_follows_focus) }, ?_,
      rfl⟩
    simp [dispatchInternal, hh, focus_window, hreg]

/-- Witness for C9 on the sample state `st0`, whose configuration has
`sloppy_mouse_follows_focus = false`: `AddedWindow` still records a focus
transfer with the sloppy flag `true`, while `WindowTakeFocus` records the
configured `false`. -/
theorem C9_added_window_sloppy_hardcoded_witness :
    st0.config.sloppy_mouse_follows_focus = false ∧
    (∃ st', dispatchInternal st0
        (.DisplayAction (.AddedWindow (.SmithayHandle 3) false true)) =
          some st' ∧
      st'.focused = some (3, true)) ∧
    (∃ st', dispatchInternal st0
        (.DisplayAction (.WindowTakeFocus win0 none)) = some st' ∧
      st'.focused = some (3, false)) := by
  have h := C9_added_window_sloppy_hardcoded st0 3 mw0 false win0 none rfl
  exact ⟨rfl, h.1, h.2 rfl⟩

/-! Helper lemmas about the event loop: no handler ever turns the
`running` flag back on, so a `Closed` channel event is final. -/

/-- Function `updateOneWindow` never touches the `running` flag. -/
theorem updateOneWindow_running {st : BackendState} {w : LWindow}
    {st' : BackendState} (h : updateOneWindow st w = some st') :
    st'.running = st.running := by
  unfold updateOneWindow at h
  split at h
  · split at h
    · exact absurd h (by simp)
    · simp only [Option.some.injEq] at h
      subst h
      rfl
  · exact absurd h (by simp)

/-- The `UpdateWindows` fold never touches the `running` flag. -/
theorem updateWindows_running : ∀ (ws : List LWindow)
    {st st' : BackendState},
    List.foldlM updateOneWindow st ws = some st' →
    st'.running = st.running := by
  intro ws
  induction ws with
  | nil =>
    intro st st' h
    have h2 := Option.some.inj h
    subst h2
    rfl
  | cons w rest ih =>
    intro st st' h
    simp only [List.foldlM_cons] at h
    cases hmid : updateOneWindow st w with
    | none => rw [hmid] at h; exact absurd h (by simp)
    | some s =>
      rw [hmid] at h
      simp only [Option.bind_eq_bind, Option.some_bind] at h
      rw [ih h, updateOneWindow_running hmid]

/-- Function `focus_window` never touches the `running` flag. -/
theorem focus_window_running {st : BackendState} {H : Nat} {sl : Bool}
    {st' : BackendState} (h : focus_window st H sl = some st') :
    st'.running = st.running := by
  unfold focus_window at h
  split at h
  · exact absurd h (by simp)
  · simp only [Option.some.injEq] at h
    subst h
    rfl

/-- The action dispatch never touches the `running` flag: every arm either
panics or returns a state with the flag it was given. -/
theorem dispatchInternal_running {st : BackendState} {a : InternalAction}
    {st' : BackendState} (h : dispatchInternal st a = some st') :
    st'.running = st.running := by
  cases a with
  | Flush =>
    simp only [dispatchInternal, Option.some.injEq] at h
    subst h; rfl
  | GenerateVerifyFocusEvent =>
    simp only [dispatchInternal, Option.some.injEq] at h
    subst h; rfl
  | UpdateWindows ws =>
    simp only [dispatchInternal] at h
    exact updateWindows_running ws h
  | DisplayAction act =>
    cases act with
    | KillWindow h1 => exact absurd h (by simp [dispatchInternal])
    | MoveMouseOver h1 b => exact absurd h (by simp [dispatchInternal])
    | MoveMouseOverPoint p => exact absurd h (by simp [dispatchInternal])
    | SetState h1 b s => exact absurd h (by simp [dispatchInternal])
    | MoveToTop h1 => exact absurd h (by simp [dispatchInternal])
    | DestroyedWindow h1 => exact absurd h (by simp [dispatchInternal])
    | Unfocus h1 b => exact absurd h (by simp [dispatchInternal])
    | ReplayClick h1 b => exact absurd h (by simp [dispatchInternal])
    | ReadyToResizeWindow h1 =>
      exact absurd h (by simp [dispatchInternal])
    | ReadyToMoveWindow h1 => exact absurd h (by simp [dispatchInternal])
    | NormalMode => exact absurd h (by simp [dispatchInternal])
    | ConfigureXlibWindow w => exact absurd h (by simp [dispatchInternal])
    | SetWindowOrder a b =>
      simp only [dispatchInternal, Option.some.injEq] at h
      subst h; rfl
    | SetCurrentTags t =>
      simp only [dispatchInternal, Option.some.injEq] at h
      subst h; rfl
    | FocusWindowUnderCursor =>
      simp only [dispatchInternal, Option.some.injEq] at h
      subst h; rfl
    | SetWindowTag h1 tag =>
      simp only [dispatchInternal] at h
      split at h
      · split at h
        · exact absurd h (by simp)
        · simp only [Option.some.injEq] at h
          subst h; rfl
      · exact absurd h (by simp)
    | AddedWindow h1 fl fo =>
      simp only [dispatchInternal] at h
      split at h
      · split at h
        · exact absurd h (by simp)
        · split at h
          · rw [focus_window_running h]
          · simp only [Option.some.injEq] at h
            subst h; rfl
      · exact absurd h (by simp)
    | WindowTakeFocus w p =>
      simp only [dispatchInternal] at h
      split at h
      · rw [focus_window_running h]
      · exact absurd h (by simp)

/-- Unfolding equation: a tick over an empty batch changes nothing. -/
theorem dispatchTick_nil (st : BackendState) :
    dispatchTick st [] = some st :=
  rfl

/-- Unfolding equation: a tick handles the first ready event and, when
that does not panic, continues with the rest of the batch. -/
theorem dispatchTick_cons (st : BackendState) (ev : ChannelEvent)
    (rest : List ChannelEvent) :
    dispatchTick st (ev :: rest) =
      (handleChannelEvent st ev).bind (fun s => dispatchTick s rest) :=
  rfl

/-- A channel-event handler never turns the `running` flag back on. -/
theorem handleChannelEvent_no_restart {st : BackendState}
    {ev : ChannelEvent} {st' : BackendState}
    (h : handleChannelEvent st ev = some st') (hr : st.running = false) :
    st'.running = false := by
  cases ev with
  | Msg a => rw [dispatchInternal_running h, hr]
  | Closed =>
    simp only [handleChannelEvent, Option.some.injEq] at h
    subst h; rfl

/-- A tick started with the `running` flag off leaves it off. -/
theorem dispatchTick_stopped : ∀ (l : List ChannelEvent)
    {st st' : BackendState}, st.running = false →
    dispatchTick st l = some st' → st'.running = false := by
  intro l
  induction l with
  | nil =>
    intro st st' hr h
    have h2 := Option.some.inj h
    subst h2; exact hr
  | cons ev rest ih =>
    intro st st' hr h
    rw [dispatchTick_cons] at h
    cases hev : handleChannelEvent st ev with
    | none => rw [hev] at h; exact absurd h (by simp)
    | some s =>
      rw [hev] at h
      simp only [Option.bind_eq_bind, Option.some_bind] at h
      exact ih (handleChannelEvent_no_restart hev hr) h

/-- A tick whose batch contains the `Closed` channel event ends with the
`running` flag off (when it does not panic outright). -/
theorem dispatchTick_closed : ∀ (l : List ChannelEvent)
    {st st' : BackendState}, ChannelEvent.Closed ∈ l →
    dispatchTick st l = some st' → st'.running = false := by
  intro l
  induction l with
  | nil => intro st st' hmem; exact absurd hmem (by simp)
  | cons ev rest ih =>
    intro st st' hmem h
    rw [dispatchTick_cons] at h
    cases hev : handleChannelEvent st ev with
    | none => rw [hev] at h; exact absurd h (by simp)
    | some s =>
      rw [hev] at h
      simp only [Option.bind_eq_bind, Option.some_bind] at h
      rcases List.mem_cons.mp hmem with he | hrest
      · subst he
        simp only [handleChannelEvent, Option.some.injEq] at hev
        exact dispatchTick_stopped rest (hev ▸ rfl) h
      · exact ih hrest h

/-- A loop whose `running` flag is off executes no tick. -/
theorem runLoop_stopped {st : BackendState}
    (hr : st.running = false) :
    ∀ bs : List (List ChannelEvent), runLoop st bs = 0 := by
  intro bs
  cases bs with
  | nil => rfl
  | cons b rest => simp [runLoop, hr]

/-- C4: when the WM core drops the action channel, the `Closed` handler
stores `false` into the `running` flag, and — the loop running only while
the flag is true — the loop exits within the one 16ms dispatch tick that
observed the closure: that tick is the last one executed. -/
theorem C4_channel_closed_stops_loop (st : BackendState)
    (pre post : List ChannelEvent) (rest : List (List ChannelEvent)) :
    dispatchTimeoutMs = 16 ∧
    handleChannelEvent st .Closed = some { st with running := false } ∧
    (st.running = false → runLoop st rest = 0) ∧
    (st.running = true →
      runLoop st ((pre ++ .Closed :: post) :: rest) = 1) := by
  refine ⟨rfl, rfl, fun hr => runLoop_stopped hr rest, fun hr => ?_⟩
  simp only [runLoop, hr, if_true]
  cases hd : dispatchTick st (pre ++ .Closed :: post) with
  | none => rfl
  | some st' =>
    have hstop : st'.running = false :=
      dispatchTick_closed _ (by simp) hd
    have hpd : (postDispatch st').running = false := hstop
    show 1 + runLoop (postDispatch st') rest = 1
    rw [runLoop_stopped hpd rest]

/-- Witness for C4 on the sample state `st0` (whose `running` flag is on):
a tick delivering only `Closed` is the last tick even though another batch
is pending. -/
theorem C4_channel_closed_stops_loop_witness :
    st0.running = true ∧
    handleChannelEvent st0 .Closed = some { st0 with running := false } ∧
    runLoop st0 [[.Closed], []] = 1 := by
  have h := C4_channel_closed_stops_loop st0 [] [] [[]]
  exact ⟨rfl, h.2.1, h.2.2.2 rfl⟩

/-- C8: a key press whose modified symbol lies in the reserved range
`KEY_XF86Switch_VT_1 ..= KEY_XF86Switch_VT_12` is intercepted rather than
forwarded, whatever the modifier state, and the session VT change is
requested for index `symbol - KEY_XF86Switch_VT_1 + 1`; a pressed symbol
matching none of the built-in bindings is forwarded. -/
theorem C8_vt_switch_intercept (running : Bool) (m : ModifiersState)
    (sym : Nat) :
    (KEY_XF86Switch_VT_1 ≤ sym → sym ≤ KEY_XF86Switch_VT_12 →
      keyboardFilter running m sym true =
        (.Intercept ((sym : Int) - (KEY_XF86Switch_VT_1 : Nat) + 1),
          running) ∧
      keyboardKeyEvent running m sym true =
        (some ((sym : Int) - (KEY_XF86Switch_VT_1 : Nat) + 1),
          running)) ∧
    ((m.logo && m.shift && (sym == KEY_Return)) = false →
      (m.logo && m.shift && (sym == KEY_Q)) = false →
      ¬ (KEY_XF86Switch_VT_1 ≤ sym ∧ sym ≤ KEY_XF86Switch_VT_12) →
      keyboardFilter running m sym true = (.Forward, running) ∧
      keyboardKeyEvent running m sym true = (none, running)) := by
  constructor
  · intro h1 h2
    have e1 : (sym == KEY_Return) = false := by
      simp only [KEY_XF86Switch_VT_1] at h1
      simp only [KEY_Return, beq_eq_false_iff_ne, ne_eq]
      omega
    have e2 : (sym == KEY_Q) = false := by
      simp only [KEY_XF86Switch_VT_1] at h1
      simp only [KEY_Q, beq_eq_false_iff_ne, ne_eq]
      omega
    simp [keyboardFilter, keyboardKeyEvent, e1, e2, h1, h2]
  · intro f1 f2 f3
    simp [keyboardFilter, keyboardKeyEvent, f1, f2, f3]

/-- Witness for C8: the symbol `KEY_XF86Switch_VT_3` (0x1008fe03) under
logo+shift requests VT 3, while the plain symbol 100 (`d`) is forwarded
with no VT request. -/
theorem C8_vt_switch_intercept_witness :
    keyboardKeyEvent true { logo := true, shift := true } 0x1008fe03
      true = (some 3, true) ∧
    keyboardKeyEvent true {} 100 true = (none, true) := by
  have h1 := (C8_vt_switch_intercept true { logo := true, shift := true }
    0x1008fe03).1 (by decide) (by decide)
  have h2 := (C8_vt_switch_intercept true {} 100).2 (by decide)
    (by decide) (by decide)
  refine ⟨?_, h2.2⟩
  rw [h1.2]
  norm_num [KEY_XF86Switch_VT_1]

end Smithay
